import Mathlib

/-!
Shallow embedding of the `next-supabase-auth` front-end
(`src/lib/auth/AuthContext.tsx`, `src/lib/utils.ts`, and the sign-up page
in `src/unnamed/part_000`).

The code is event-handler glue over the Supabase client SDK.  Each handler
is embedded as a pure function from its inputs and the SDK call's outcome
(parameterising the external, black-box SDK) to the ordered list of
observable effects it performs (SDK invocations, user-visible messages,
state setter calls, HTTP requests, client-side navigations) together with
the exception it lets propagate, if any.
-/

/-- The credential pair passed to `signUp` / `signIn`
(`src/lib/auth/auth.types` `SupabaseAuthPayload`). -/
structure SupabaseAuthPayload where
  email : String
  password : String
deriving DecidableEq

/-- The provider's user object, reduced to the fields this codebase reads. -/
structure User where
  id : String
  email : String
deriving DecidableEq

/-- The provider's session object, reduced to the field this codebase reads:
its (possibly absent) user. -/
structure Session where
  user : Option User
deriving DecidableEq

/-- An error VALUE returned by an SDK call (`error.message` is what the
handlers display). -/
structure ApiError where
  message : String
deriving DecidableEq

/-- An exception THROWN by an awaited SDK call.  The `catch` blocks read
`error.error_description || error`: `asString` stands for the error value
itself in message position when `error_description` is absent or falsy. -/
structure ThrownError where
  error_description : Option String
  asString : String
deriving DecidableEq

/-- JavaScript `error.error_description || error`: `||` falls through on a
falsy left operand, i.e. when `error_description` is absent or the empty
string. -/
def thrownErrorMessage (e : ThrownError) : String :=
  match e.error_description with
  | some d => if d = "" then e.asString else d
  | none => e.asString

/-- The value the SDK returns from `signUp` / `signIn` / `signOut`
(v1 shape `{ user, session, error }`); the handlers destructure `error`
(and, for `signIn`, `user`). -/
structure AuthResponse where
  user : Option User
  session : Option Session
  error : Option ApiError
deriving DecidableEq

/-- Outcome of one awaited SDK call: it either returns a response value or
throws. -/
inductive SdkOutcome where
  | returns : AuthResponse → SdkOutcome
  | throws : ThrownError → SdkOutcome
deriving DecidableEq

/-- Argument of `supabase.auth.signIn`: a credential pair, or an OAuth
provider name as in `signIn({ provider: 'github' })`. -/
inductive SignInArg where
  | credentials : SupabaseAuthPayload → SignInArg
  | oauth : String → SignInArg
deriving DecidableEq

/-- A message passed to `handleMessage` (`{message, type}`; the sign-up
page omits `type`). -/
structure Message where
  message : String
  type : Option String
deriving DecidableEq

/-- Minimal JSON values, enough for `JSON.stringify({ event, session })`. -/
inductive Json where
  | null : Json
  | str : String → Json
  | obj : List (String × Json) → Json

/-- Observable effects performed by the handlers, in program order. -/
inductive Effect where
  | setLoading : Bool → Effect
  | setUser : Option User → Effect
  | setUserLoading : Bool → Effect
  | setLoggedIn : Bool → Effect
  | sdkSignUp : SupabaseAuthPayload → Effect
  | sdkSignIn : SignInArg → Effect
  | sdkSignOut : Effect
  | showMessage : Message → Effect
  | httpPost : String → Json → String → Effect
  | navigate : String → Effect

def Effect.isShowMessage : Effect → Bool
  | .showMessage _ => true
  | _ => false

def Effect.isSdkSignUp : Effect → Bool
  | .sdkSignUp _ => true
  | _ => false

def Effect.isNavigate : Effect → Bool
  | .navigate _ => true
  | _ => false

/-- Modelled from the spec: `ROUTE_HOME` is imported from `src/config`,
which is not present under `src/`; the spec says only that client-side
navigation targets a "home" route.  The concrete path string is a
placeholder; only the constant's identity matters below. -/
def ROUTE_HOME : String := "/"

/-- Modelled from the spec: `ROUTE_AUTH` is imported from the absent
`src/config`; the spec says only that navigation targets an "auth" route. -/
def ROUTE_AUTH : String := "/auth"

/-- `'Signup successful. Please check your inbox for a confirmation email!'`
shown by `signUp` on success. -/
def signupSuccessMessage : String :=
  "Signup successful. Please check your inbox for a confirmation email!"

/-- When `signIn` returns no error and a null user, reading `user.email`
inside the `try` block throws a `TypeError`, which the `catch` shows. -/
def nullUserEmailError : String :=
  "TypeError: Cannot read properties of null (reading 'email')"

/-- `signUp` from `AuthContext.tsx`: `setLoading(true)`, await the SDK call,
show the provider's error message or the fixed success message, show the
caught exception's message on a throw, `setLoading(false)` in `finally`.
`handleMessage` is modelled as present (the `MessageProvider` supplies it),
so the `if (handleMessage)` guard in the error branch always passes.
Returns the effect trace and the exception propagated to the caller. -/
def signUp (payload : SupabaseAuthPayload) (outcome : SdkOutcome) :
    List Effect × Option ThrownError :=
  match outcome with
  | .returns r =>
    match r.error with
    | some e =>
      ([.setLoading true, .sdkSignUp payload,
        .showMessage ⟨e.message, some "error"⟩, .setLoading false], none)
    | none =>
      ([.setLoading true, .sdkSignUp payload,
        .showMessage ⟨signupSuccessMessage, some "success"⟩,
        .setLoading false], none)
  | .throws e =>
    ([.setLoading true, .sdkSignUp payload,
      .showMessage ⟨thrownErrorMessage e, some "error"⟩,
      .setLoading false], none)

/-- `signIn` from `AuthContext.tsx`: like `signUp`, but on success it shows
`` `Welcome, ${user.email}` ``; with a null user that field access throws
inside the `try` and the `catch` shows the `TypeError`. -/
def signIn (payload : SupabaseAuthPayload) (outcome : SdkOutcome) :
    List Effect × Option ThrownError :=
  match outcome with
  | .returns r =>
    match r.error with
    | some e =>
      ([.setLoading true, .sdkSignIn (.credentials payload),
        .showMessage ⟨e.message, some "error"⟩, .setLoading false], none)
    | none =>
      match r.user with
      | some u =>
        ([.setLoading true, .sdkSignIn (.credentials payload),
          .showMessage ⟨"Welcome, " ++ u.email, some "success"⟩,
          .setLoading false], none)
      | none =>
        ([.setLoading true, .sdkSignIn (.credentials payload),
          .showMessage ⟨nullUserEmailError, some "error"⟩,
          .setLoading false], none)
  | .throws e =>
    ([.setLoading true, .sdkSignIn (.credentials payload),
      .showMessage ⟨thrownErrorMessage e, some "error"⟩,
      .setLoading false], none)

/-- `signInWithGithub` from `AuthContext.tsx`: a bare
`await supabase.auth.signIn({ provider: 'github' })` with no `try`/`catch`
and no message; a thrown failure propagates to the caller. -/
def signInWithGithub (outcome : SdkOutcome) :
    List Effect × Option ThrownError :=
  ([.sdkSignIn (.oauth "github")],
   match outcome with
   | .returns _ => none
   | .throws e => some e)

/-- `signOut` from `AuthContext.tsx`: a bare `await supabase.auth.signOut()`
with no `try`/`catch` and no message; a thrown failure propagates. -/
def signOut (outcome : SdkOutcome) : List Effect × Option ThrownError :=
  ([.sdkSignOut],
   match outcome with
   | .returns _ => none
   | .throws e => some e)

/-- `session?.user! ?? null`: the user carried by the notification's
session, or null when the session is null or carries no user. -/
def sessionUser (session : Option Session) : Option User :=
  match session with
  | none => none
  | some s => s.user

def jsonOfUser (u : User) : Json :=
  .obj [("id", .str u.id), ("email", .str u.email)]

def jsonOfSession : Option Session → Json
  | none => .null
  | some s =>
    .obj [("user", match s.user with
                   | none => Json.null
                   | some u => jsonOfUser u)]

/-- `JSON.stringify({ event, session })`: the body of the session-sync
request, keys in source order. -/
def serverSessionBody (event : String) (session : Option Session) : Json :=
  .obj [("event", .str event), ("session", jsonOfSession session)]

/-- `setServerSession` from `AuthContext.tsx`: one POST to the same-origin
`/api/auth` endpoint with a JSON content type and body
`JSON.stringify({ event, session })`. -/
def setServerSession (event : String) (session : Option Session) :
    List Effect :=
  [.httpPost "/api/auth" (serverSessionBody event session) "application/json"]

/-- The React state owned by `AuthProvider` (`useState` hooks). -/
structure AuthState where
  user : Option User
  userLoading : Bool
  loggedIn : Bool
  loading : Bool
deriving DecidableEq

/-- The `useState` initial values: `user` null, `userLoading` true,
`loggedIn` false, `loading` false. -/
def initialAuthState : AuthState :=
  { user := none, userLoading := true, loggedIn := false, loading := false }

/-- The `onAuthStateChange` callback registered in the `useEffect`:
`setUserLoading(false)`, `await setServerSession(event, session)`, then if
the session carries a user: `setUser`, `setLoggedin(true)`,
`Router.push(ROUTE_HOME)`; otherwise `setUser(null)`,
`Router.push(ROUTE_AUTH)` (note: `loggedIn` is not reset).  Returns the
updated state and the effect trace. -/
def onAuthStateChange (event : String) (session : Option Session)
    (st : AuthState) : AuthState × List Effect :=
  match sessionUser session with
  | some u =>
    ({ st with user := some u, userLoading := false, loggedIn := true },
     .setUserLoading false :: setServerSession event session ++
       [.setUser (some u), .setLoggedIn true, .navigate ROUTE_HOME])
  | none =>
    ({ st with user := none, userLoading := false },
     .setUserLoading false :: setServerSession event session ++
       [.setUser none, .navigate ROUTE_AUTH])

/-- The synchronous part of the `useEffect` body: read
`supabase.auth.user()`; if a user is present, `setUser`,
`setUserLoading(false)`, `setLoggedin(true)`, `Router.push(ROUTE_HOME)`;
otherwise do nothing. -/
def authProviderMount (currentUser : Option User) (st : AuthState) :
    AuthState × List Effect :=
  match currentUser with
  | some u =>
    ({ st with user := some u, userLoading := false, loggedIn := true },
     [.setUser (some u), .setUserLoading false, .setLoggedIn true,
      .navigate ROUTE_HOME])
  | none => (st, [])

/-- Every `navigate` effect in the list targets the home route when
`userPresent`, and the auth route otherwise. -/
def navTargetsOk (userPresent : Bool) (effs : List Effect) : Bool :=
  effs.all fun e =>
    match e with
    | .navigate r => if userPresent then r == ROUTE_HOME else r == ROUTE_AUTH
    | _ => true

/-- `useFormFields`'s `handleChange` (`src/lib/utils.ts`):
`setValues({ ...values, [name]: value })`, i.e. the form state as a map
from field name to value with one entry overridden. -/
def handleChange (values : String → String) (name value : String) :
    String → String :=
  fun field => if field = name then value else values field

/-- The sign-up form's field shape (`src/unnamed/part_000`). -/
structure SignUpFieldProps where
  email : String
  password : String
deriving DecidableEq

/-- The sign-up form's initial values. -/
def FORM_VALUES : SignUpFieldProps := ⟨"", ""⟩

/-- The Sign Up button's `onClick` handler in `IndexPage`
(`src/unnamed/part_000`): `evt.preventDefault()` then
`` handleMessage({message: `will sign up with ${values.email}`}) `` —
no SDK call is made. -/
def indexPageSignUpClick (values : SignUpFieldProps) : List Effect :=
  [.showMessage ⟨"will sign up with " ++ values.email, none⟩]

/-! ## Claims -/

/-- C1: the claim says submitting the sign-up form invokes the SDK's
sign-up call with the form's (email, password).  The code's submit handler
only shows the placeholder message `will sign up with ${values.email}` and
performs no SDK call at all: evaluated here at email `user@example.com`,
password `hunter2`. -/
theorem signUpForm_submit_does_not_call_sdk :
    indexPageSignUpClick ⟨"user@example.com", "hunter2"⟩ =
      [.showMessage ⟨"will sign up with user@example.com", none⟩] ∧
    ((indexPageSignUpClick ⟨"user@example.com", "hunter2"⟩).all
        fun e => !e.isSdkSignUp) = true :=
  ⟨rfl, rfl⟩

/-- C2 counterexample: a failure thrown by the SDK call inside
`signInWithGithub` propagates uncaught to the caller and no user-visible
message is shown, refuting the claim that every SDK failure is caught at
its call site. -/
theorem signInWithGithub_thrown_failure_uncaught :
    (signInWithGithub (.throws ⟨none, "network request failed"⟩)).2 =
      some ⟨none, "network request failed"⟩ ∧
    ((signInWithGithub (.throws ⟨none, "network request failed"⟩)).1.all
        fun e => !e.isShowMessage) = true :=
  ⟨rfl, rfl⟩

/-- C2 amended: failures thrown by the SDK calls in `signUp` and `signIn`
are caught at the call site and surfaced as a user-visible message, and
those two operations never propagate a failure; failures thrown by the SDK
calls in `signInWithGithub` and `signOut` are not caught: no message is
shown and the failure propagates to the caller. -/
theorem sdk_failure_handling_amended :
    ∀ (p : SupabaseAuthPayload) (e : ThrownError) (o : SdkOutcome),
      ((signUp p (.throws e)).2 = none ∧
        ((signUp p (.throws e)).1.any Effect.isShowMessage) = true) ∧
      ((signIn p (.throws e)).2 = none ∧
        ((signIn p (.throws e)).1.any Effect.isShowMessage) = true) ∧
      ((signInWithGithub (.throws e)).2 = some e ∧
        ((signInWithGithub (.throws e)).1.all
          fun x => !x.isShowMessage) = true) ∧
      ((signOut (.throws e)).2 = some e ∧
        ((signOut (.throws e)).1.all fun x => !x.isShowMessage) = true) ∧
      (signUp p o).2 = none ∧ (signIn p o).2 = none := by
  intro p e o
  refine ⟨⟨rfl, rfl⟩, ⟨rfl, rfl⟩, ⟨rfl, rfl⟩, ⟨rfl, rfl⟩, ?_, ?_⟩
  · rcases o with ⟨u, s, err⟩ | e'
    · cases err <;> rfl
    · rfl
  · rcases o with ⟨u, s, err⟩ | e'
    · cases err
      · cases u <;> rfl
      · rfl
    · rfl

/-- C3: whenever the auth-state-change handler receives a notification
whose session carries no user, the resulting user state is null and the
trace navigates to the auth route. -/
theorem signed_out_clears_user_and_navigates_auth :
    ∀ (event : String) (session : Option Session) (st : AuthState),
      sessionUser session = none →
      (onAuthStateChange event session st).1.user = none ∧
      Effect.navigate ROUTE_AUTH ∈ (onAuthStateChange event session st).2 := by
  intro event session st h
  unfold onAuthStateChange
  rw [h]
  exact ⟨rfl, by simp [setServerSession]⟩

/-- C3 witness: a `SIGNED_OUT` notification with a null session, delivered
in the initial state, clears the user and navigates to the auth route. -/
theorem signed_out_witness :
    (onAuthStateChange "SIGNED_OUT" none initialAuthState).1.user = none ∧
    Effect.navigate ROUTE_AUTH ∈
      (onAuthStateChange "SIGNED_OUT" none initialAuthState).2 :=
  signed_out_clears_user_and_navigates_auth "SIGNED_OUT" none
    initialAuthState rfl

/-- C4: after the handler processes any notification, the context's user
state equals the user carried by the notification's session (null when the
session carries none). -/
theorem user_state_mirrors_notification :
    ∀ (event : String) (session : Option Session) (st : AuthState),
      (onAuthStateChange event session st).1.user = sessionUser session := by
  intro event session st
  unfold onAuthStateChange
  cases h : sessionUser session <;> rfl

/-- C5: when the SDK call inside `signUp` or `signIn` returns an error
value, the one message shown is exactly the provider's `error.message`,
with type `error`. -/
theorem error_result_shows_provider_message :
    ∀ (p : SupabaseAuthPayload) (e : ApiError) (u : Option User)
      (s : Option Session),
      (signUp p (.returns ⟨u, s, some e⟩)).1.filter Effect.isShowMessage =
        [.showMessage ⟨e.message, some "error"⟩] ∧
      (signIn p (.returns ⟨u, s, some e⟩)).1.filter Effect.isShowMessage =
        [.showMessage ⟨e.message, some "error"⟩] := by
  intro p e u s
  exact ⟨rfl, rfl⟩

/-- C6: when the SDK call inside `signUp` returns no error, the one message
shown is the fixed signup-success message, with type `success`. -/
theorem signup_success_shows_success_message :
    ∀ (p : SupabaseAuthPayload) (u : Option User) (s : Option Session),
      (signUp p (.returns ⟨u, s, none⟩)).1.filter Effect.isShowMessage =
        [.showMessage ⟨signupSuccessMessage, some "success"⟩] := by
  intro p u s
  rfl

/-- C7: for every notification `{event, session}`, the handler performs an
HTTP POST to the same-origin `/api/auth` endpoint whose body is the JSON
serialization of `{event, session}`, with content type
`application/json`. -/
theorem notification_posts_session_to_server :
    ∀ (event : String) (session : Option Session) (st : AuthState),
      Effect.httpPost "/api/auth" (serverSessionBody event session)
          "application/json" ∈ (onAuthStateChange event session st).2 := by
  intro event session st
  unfold onAuthStateChange setServerSession
  cases h : sessionUser session <;> simp

/-- C8: every navigation the provider performs (on mount and in the
notification handler) targets the home route when a user is present and
the auth route when none is, and no other handler ever navigates. -/
theorem navigation_targets_home_or_auth :
    ∀ (cu : Option User) (st st2 : AuthState) (event : String)
      (session : Option Session) (p : SupabaseAuthPayload)
      (o o2 o3 o4 : SdkOutcome),
      navTargetsOk cu.isSome (authProviderMount cu st).2 = true ∧
      navTargetsOk (sessionUser session).isSome
        (onAuthStateChange event session st2).2 = true ∧
      ((signUp p o).1.all fun x => !x.isNavigate) = true ∧
      ((signIn p o2).1.all fun x => !x.isNavigate) = true ∧
      ((signInWithGithub o3).1.all fun x => !x.isNavigate) = true ∧
      ((signOut o4).1.all fun x => !x.isNavigate) = true := by
  intro cu st st2 event session p o o2 o3 o4
  refine ⟨?_, ?_, ?_, ?_, rfl, rfl⟩
  · cases cu <;> rfl
  · unfold onAuthStateChange
    cases h : sessionUser session <;> rfl
  · rcases o with ⟨u, s, err⟩ | e
    · cases err <;> rfl
    · rfl
  · rcases o2 with ⟨u, s, err⟩ | e
    · cases err
      · cases u <;> rfl
      · rfl
    · rfl

/-- C9: `handleChange` sets the field named by the change event to the
event's value and leaves every other field of the form state unchanged. -/
theorem handleChange_updates_only_named_field :
    ∀ (values : String → String) (name value field : String),
      handleChange values name value name = value ∧
      (field ≠ name → handleChange values name value field = values field) := by
  intro values name value field
  refine ⟨if_pos rfl, fun h => if_neg h⟩

/-- C9 witness: changing the `email` field to `a@b.com` sets `email` and
leaves `password` at its old value. -/
theorem handleChange_witness :
    handleChange (fun _ => "") "email" "a@b.com" "email" = "a@b.com" ∧
    handleChange (fun _ => "") "email" "a@b.com" "password" = "" :=
  ⟨(handleChange_updates_only_named_field (fun _ => "") "email" "a@b.com"
      "password").1,
   (handleChange_updates_only_named_field (fun _ => "") "email" "a@b.com"
      "password").2 (by decide)⟩

/-- C10: every `signUp` or `signIn` invocation sets the loading flag to
true as its first effect, calls the SDK as its second, and resets the flag
to false as its last effect, on all outcomes (success, returned error
value, thrown exception). -/
theorem loading_flag_set_and_reset :
    ∀ (p : SupabaseAuthPayload) (o o2 : SdkOutcome),
      ((signUp p o).1.head? = some (.setLoading true) ∧
        (signUp p o).1[1]? = some (.sdkSignUp p) ∧
        (signUp p o).1.getLast? = some (.setLoading false)) ∧
      ((signIn p o2).1.head? = some (.setLoading true) ∧
        (signIn p o2).1[1]? = some (.sdkSignIn (.credentials p)) ∧
        (signIn p o2).1.getLast? = some (.setLoading false)) := by
  intro p o o2
  constructor
  · rcases o with ⟨u, s, err⟩ | e
    · cases err <;> exact ⟨rfl, rfl, rfl⟩
    · exact ⟨rfl, rfl, rfl⟩
  · rcases o2 with ⟨u, s, err⟩ | e
    · cases err
      · cases u <;> exact ⟨rfl, rfl, rfl⟩
      · exact ⟨rfl, rfl, rfl⟩
    · exact ⟨rfl, rfl, rfl⟩
